import Mathlib

/-!
Shallow embedding of the community-classes registration API
(`apps/api/src/index.ts`) backed by three relational tables
(`apps/api/supabase/schema.sql`): `users`, `community_classes`,
`class_registrations`.

The persistent store is modelled as explicit state (`Store`), each
Supabase query as a pure function on it, and each Express handler as a
function from request data and store to a response and an updated store.
External collaborators (the Supabase auth client resolving a bearer token
to a user id, and JavaScript's `Date.parse`) are passed in as function
parameters.  Concurrency in the registration endpoint is modelled by a
small-step semantics (`stepThread` / `runSchedule`) in which each single
database query is atomic and a schedule interleaves the queries of
in-flight requests.
-/

namespace Fullstack

/-- `type UserRole = "admin" | "member"` (index.ts line 9). -/
inductive UserRole where
  | admin
  | member
deriving DecidableEq, BEq, Repr

/-- A row of the `users` table (schema.sql): `id` is the primary key; the
`role` column is stored as a string and is only trusted after the
handler-side check in `fetchUserRole`. -/
structure UserRow where
  id : String
  role : String
deriving DecidableEq, Repr

/-- A row of the `community_classes` table, matching the columns selected
by the handlers.  `starts_at` and `created_at` are `timestamptz` columns,
modelled as integer timestamps. -/
structure CommunityClass where
  id : String
  title : String
  description : String
  instructor_name : String
  location : String
  starts_at : Int
  capacity : Int
  created_at : Int
  created_by : String
deriving DecidableEq, Repr

/-- A row of the `class_registrations` table (schema.sql declares
`unique (class_id, member_id)` on it). -/
structure Registration where
  id : String
  class_id : String
  member_id : String
deriving DecidableEq, Repr

/-- The relational store: the three tables the API reads and writes. -/
structure Store where
  users : List UserRow
  classes : List CommunityClass
  registrations : List Registration
deriving DecidableEq, Repr

/-- `dbClient.from("community_classes").select("id, capacity").eq("id", classId).maybeSingle()`
(index.ts lines 392–396). -/
def findClass (s : Store) (classId : String) : Option CommunityClass :=
  s.classes.find? (fun c => c.id == classId)

/-- `dbClient.from("class_registrations").select("id", { count: "exact", head: true }).eq("class_id", classId)`
(index.ts lines 425–428): the number of registrations stored for a class. -/
def countFor (s : Store) (classId : String) : Nat :=
  (s.registrations.filter (fun r => r.class_id == classId)).length

/-- `dbClient.from("class_registrations").select("id").eq("class_id", ...).eq("member_id", ...).maybeSingle()`
(index.ts lines 408–413): whether a registration for the pair exists. -/
def existsFor (s : Store) (classId memberId : String) : Bool :=
  s.registrations.any (fun r => r.class_id == classId && r.member_id == memberId)

/-- The raw Postgres message the store reports when the
`unique (class_id, member_id)` constraint of `class_registrations`
rejects an insert. -/
def dupKeyMessage : String :=
  "duplicate key value violates unique constraint \"class_registrations_class_id_member_id_key\""

/-- `dbClient.from("class_registrations").insert({ class_id, member_id })`
(index.ts lines 440–442).  The store is the final arbiter of the
uniqueness constraint: the insert fails with the raw constraint-violation
message when the pair is already present. -/
def ledgerInsert (s : Store) (regId classId memberId : String) :
    Except String Store :=
  if existsFor s classId memberId then
    .error dupKeyMessage
  else
    .ok { s with registrations :=
            s.registrations ++ [{ id := regId, class_id := classId, member_id := memberId }] }

/-- `fetchUserRole` (index.ts lines 119–135): reads the `users` row for the
id; returns `null` when the row is absent, the role is empty/missing, or
the stored role string is anything other than `"admin"` or `"member"`. -/
def fetchUserRole (s : Store) (userId : String) : Option UserRole :=
  match s.users.find? (fun u => u.id == userId) with
  | none => none
  | some row =>
    if row.role == "admin" then some .admin
    else if row.role == "member" then some .member
    else none

/-- JavaScript's `toLowerCase` on the ASCII range (the only range the
`"bearer"` comparison in `readBearerToken` can match). -/
def lowerChar (c : Char) : Char :=
  if 'A' ≤ c && c ≤ 'Z' then Char.ofNat (c.toNat + 32) else c

/-- Lowercase every character of a string. -/
def lowerAscii (s : String) : String :=
  ⟨s.data.map lowerChar⟩

/-- Helper for `splitOnSpace`: accumulates the current field in reverse. -/
def splitOnSpaceAux : List Char → List Char → List (List Char)
  | [], acc => [acc.reverse]
  | c :: rest, acc =>
    if c = ' ' then acc.reverse :: splitOnSpaceAux rest []
    else splitOnSpaceAux rest (c :: acc)

/-- JavaScript's `header.split(" ")`: split on every single space,
keeping empty fields. -/
def splitOnSpace (s : String) : List String :=
  (splitOnSpaceAux s.data []).map (fun l => ⟨l⟩)

/-- `readBearerToken` (index.ts lines 105–117): the `Authorization` header
is split on spaces; the first part must case-insensitively equal
`"bearer"` and the second part must be a non-empty token.  A missing or
empty header (falsy in JavaScript) yields no token. -/
def readBearerToken (header : Option String) : Option String :=
  match header with
  | none => none
  | some h =>
    if h == "" then none
    else
      let parts := splitOnSpace h
      let scheme := parts.getD 0 ""
      let token := parts.getD 1 ""
      if lowerAscii scheme == "bearer" && token != "" then some token else none

/-- Outcome of `requireUser` (index.ts lines 137–171):
401 for a missing or unverifiable token, 403 when no valid role is on
record or the role is not in the allowed list, otherwise the
authenticated user. -/
inductive AuthOutcome where
  | missingToken
  | invalidToken
  | noRole
  | wrongRole
  | ok (id : String) (role : UserRole)
deriving DecidableEq, Repr

/-- `requireUser` (index.ts lines 137–171).  `tokenUser` models
`authClient.auth.getUser`: the external identity verifier resolving a
bearer token to a user id. -/
def requireUser (s : Store) (tokenUser : String → Option String)
    (authHeader : Option String) (allowedRoles : Option (List UserRole)) :
    AuthOutcome :=
  match readBearerToken authHeader with
  | none => .missingToken
  | some token =>
    match tokenUser token with
    | none => .invalidToken
    | some uid =>
      match fetchUserRole s uid with
      | none => .noRole
      | some role =>
        match allowedRoles with
        | some allowed =>
          if allowed.contains role then .ok uid role else .wrongRole
        | none => .ok uid role

/-- Response taxonomy of `POST /api/member/registrations`
(index.ts lines 379–450), one constructor per distinct exit. -/
inductive RegistrationResponse where
  | missingToken
  | invalidToken
  | noRole
  | forbidden
  | invalidPayload
  | storeError (msg : String)
  | classNotFound
  | alreadyRegistered
  | classFull
  | created
deriving DecidableEq, Repr

/-- The HTTP status code each registration response carries in the source. -/
def registrationStatus : RegistrationResponse → Nat
  | .missingToken => 401
  | .invalidToken => 401
  | .noRole => 403
  | .forbidden => 403
  | .invalidPayload => 400
  | .storeError _ => 500
  | .classNotFound => 404
  | .alreadyRegistered => 409
  | .classFull => 409
  | .created => 201

/-- The database section of `POST /api/member/registrations`
(index.ts lines 392–449), run sequentially: look up the class (404 when
absent), check for an existing registration (409), compare
`(count ?? 0) >= capacity` (409 class full), then insert; an insert error
is returned as a 500 with the store's message. -/
def admission (s : Store) (classId memberId regId : String) :
    RegistrationResponse × Store :=
  match findClass s classId with
  | none => (.classNotFound, s)
  | some classRecord =>
    if existsFor s classId memberId then (.alreadyRegistered, s)
    else if classRecord.capacity ≤ (countFor s classId : Int) then (.classFull, s)
    else
      match ledgerInsert s regId classId memberId with
      | .error msg => (.storeError msg, s)
      | .ok s2 => (.created, s2)

/-- `POST /api/member/registrations` (index.ts lines 379–450): requires a
`member` role, parses the body (`registerSchema`: a payload carrying a
uuid `classId`; `none` models any body `safeParse` rejects), then runs the
admission sequence. -/
def registerHandler (s : Store) (tokenUser : String → Option String)
    (authHeader : Option String) (body : Option String) (regId : String) :
    RegistrationResponse × Store :=
  match requireUser s tokenUser authHeader (some [.member]) with
  | .missingToken => (.missingToken, s)
  | .invalidToken => (.invalidToken, s)
  | .noRole => (.noRole, s)
  | .wrongRole => (.forbidden, s)
  | .ok uid _role =>
    match body with
    | none => (.invalidPayload, s)
    | some classId => admission s classId uid regId

/-!
Concurrent semantics of the registration endpoint.  An in-flight request
(past auth and body validation) is a thread whose program counter records
which of the four database round-trips of index.ts lines 392–449 it has
completed.  Each round-trip is atomic; a schedule interleaves threads.
-/

/-- Program counter of an in-flight registration request:
`start` = about to run the class lookup (lines 392–396);
`gotClass` = about to run the duplicate check (lines 408–413);
`notRegistered` = about to run the count query (lines 425–428);
`hasCapacity` = about to run the insert (lines 440–442);
`done` = the response has been sent. -/
inductive Phase where
  | start
  | gotClass (capacity : Int)
  | notRegistered (capacity : Int)
  | hasCapacity
  | done (r : RegistrationResponse)
deriving DecidableEq, Repr

/-- One in-flight registration request. -/
structure ReqThread where
  classId : String
  memberId : String
  regId : String
  phase : Phase
deriving DecidableEq, Repr

/-- Execute the next atomic database round-trip of one request, exactly as
index.ts lines 392–449 sequence them: lookup → 404 when absent; duplicate
check → 409; `(count ?? 0) >= capacity` → 409 class full; insert → 201 on
success, 500 with the store's raw message when the uniqueness constraint
rejects it (lines 444–447). -/
def stepThread (s : Store) (t : ReqThread) : Store × ReqThread :=
  match t.phase with
  | .start =>
    match findClass s t.classId with
    | none => (s, { t with phase := .done .classNotFound })
    | some c => (s, { t with phase := .gotClass c.capacity })
  | .gotClass cap =>
    if existsFor s t.classId t.memberId then
      (s, { t with phase := .done .alreadyRegistered })
    else (s, { t with phase := .notRegistered cap })
  | .notRegistered cap =>
    if cap ≤ (countFor s t.classId : Int) then
      (s, { t with phase := .done .classFull })
    else (s, { t with phase := .hasCapacity })
  | .hasCapacity =>
    match ledgerInsert s t.regId t.classId t.memberId with
    | .error msg => (s, { t with phase := .done (.storeError msg) })
    | .ok s2 => (s2, { t with phase := .done .created })
  | .done _ => (s, t)

/-- Run a schedule: at each tick the named thread performs its next atomic
database round-trip (out-of-range indices are skipped). -/
def runSchedule (s : Store) (ts : List ReqThread) (sched : List Nat) :
    Store × List ReqThread :=
  match sched with
  | [] => (s, ts)
  | i :: rest =>
    match ts[i]? with
    | none => runSchedule s ts rest
    | some t =>
      let p := stepThread s t
      runSchedule p.1 (ts.set i p.2) rest

/-!  Class creation (`POST /api/admin/classes`).  -/

/-- The request body of class creation after JSON parsing.  `capacity`
arrives as a JSON number (a rational in general — `z.number().int()`
checks integrality); `startsAt` is a string checked with `Date.parse`. -/
structure CreateClassBody where
  title : String
  description : String
  instructorName : String
  location : String
  startsAt : String
  capacity : Rat
deriving DecidableEq, Repr

/-- `createClassSchema` (index.ts lines 67–76): string length bounds on
title/description/instructor/location, `startsAt` must parse as a date
(`parseDate` models JavaScript's `Date.parse`), and capacity must be an
integer with `1 ≤ capacity ≤ 1000`. -/
def validCreateClass (parseDate : String → Option Int) (b : CreateClassBody) : Bool :=
  decide (2 ≤ b.title.length) && decide (b.title.length ≤ 120) &&
  decide (10 ≤ b.description.length) && decide (b.description.length ≤ 2000) &&
  decide (2 ≤ b.instructorName.length) && decide (b.instructorName.length ≤ 120) &&
  decide (2 ≤ b.location.length) && decide (b.location.length ≤ 120) &&
  (parseDate b.startsAt).isSome &&
  decide (b.capacity.den = 1) && decide (1 ≤ b.capacity) && decide (b.capacity ≤ 1000)

/-- Response taxonomy of `POST /api/admin/classes` (index.ts lines 287–325). -/
inductive CreateClassResponse where
  | missingToken
  | invalidToken
  | noRole
  | forbidden
  | invalidPayload
  | created (c : CommunityClass)
deriving DecidableEq, Repr

/-- The HTTP status code each class-creation response carries in the source. -/
def createClassStatus : CreateClassResponse → Nat
  | .missingToken => 401
  | .invalidToken => 401
  | .noRole => 403
  | .forbidden => 403
  | .invalidPayload => 400
  | .created _ => 201

/-- `POST /api/admin/classes` (index.ts lines 287–325): requires an
`admin` role, validates the body against `createClassSchema` (a `none`
body models any JSON whose shape already fails `safeParse`), then inserts
the class row (`created_by` = the authenticated admin, `starts_at` = the
parsed timestamp, `capacity` = the integer value) and returns 201 with it. -/
def createClassHandler (s : Store) (tokenUser : String → Option String)
    (authHeader : Option String) (body : Option CreateClassBody)
    (parseDate : String → Option Int) (newId : String) (now : Int) :
    CreateClassResponse × Store :=
  match requireUser s tokenUser authHeader (some [.admin]) with
  | .missingToken => (.missingToken, s)
  | .invalidToken => (.invalidToken, s)
  | .noRole => (.noRole, s)
  | .wrongRole => (.forbidden, s)
  | .ok uid _role =>
    match body with
    | none => (.invalidPayload, s)
    | some b =>
      if validCreateClass parseDate b then
        let record : CommunityClass :=
          { id := newId
            title := b.title
            description := b.description
            instructor_name := b.instructorName
            location := b.location
            starts_at := (parseDate b.startsAt).getD 0
            capacity := b.capacity.num
            created_at := now
            created_by := uid }
        (.created record, { s with classes := s.classes ++ [record] })
      else (.invalidPayload, s)

/-!  Class listing, ordered by `starts_at` ascending.  -/

/-- The ordering used by `.order("starts_at", { ascending: true })`
(index.ts lines 277 and 336). -/
def startsLe (a b : CommunityClass) : Prop :=
  a.starts_at ≤ b.starts_at

instance : DecidableRel startsLe := fun a b =>
  inferInstanceAs (Decidable (a.starts_at ≤ b.starts_at))

instance : IsTotal CommunityClass startsLe :=
  ⟨fun a b => Int.le_total a.starts_at b.starts_at⟩

instance : IsTrans CommunityClass startsLe :=
  ⟨fun _ _ _ hab hbc => Int.le_trans hab hbc⟩

/-- `dbClient.from("community_classes").select(...).order("starts_at", { ascending: true })`
(index.ts lines 274–277 and 333–336): the stored classes, sorted by
`starts_at` ascending. -/
def listClassesOrdered (s : Store) : List CommunityClass :=
  List.insertionSort startsLe s.classes

/-- A row of the member-view response (index.ts lines 370–374): the class
spread together with its registration count and whether the calling
member is registered. -/
structure MemberClassView where
  base : CommunityClass
  registrationCount : Nat
  isRegistered : Bool
deriving DecidableEq, Repr

/-- The member-view payload (index.ts lines 343–376): every class in
`starts_at` order, annotated with the count of all registrations for it
and with membership of the caller's registered-class set. -/
def memberClassList (s : Store) (uid : String) : List MemberClassView :=
  (listClassesOrdered s).map (fun c =>
    { base := c
      registrationCount := countFor s c.id
      isRegistered := existsFor s c.id uid })

/-- Response of a class-listing endpoint. -/
inductive ListResponse (α : Type) where
  | missingToken
  | invalidToken
  | noRole
  | forbidden
  | ok (items : List α)
deriving DecidableEq, Repr

/-- `GET /api/admin/classes` (index.ts lines 268–285). -/
def adminListHandler (s : Store) (tokenUser : String → Option String)
    (authHeader : Option String) : ListResponse CommunityClass :=
  match requireUser s tokenUser authHeader (some [.admin]) with
  | .missingToken => .missingToken
  | .invalidToken => .invalidToken
  | .noRole => .noRole
  | .wrongRole => .forbidden
  | .ok _ _ => .ok (listClassesOrdered s)

/-- `GET /api/member/classes` (index.ts lines 327–377). -/
def memberListHandler (s : Store) (tokenUser : String → Option String)
    (authHeader : Option String) : ListResponse MemberClassView :=
  match requireUser s tokenUser authHeader (some [.member]) with
  | .missingToken => .missingToken
  | .invalidToken => .invalidToken
  | .noRole => .noRole
  | .wrongRole => .forbidden
  | .ok uid _ => .ok (memberClassList s uid)

/-!  Signup-time role assignment.  -/

/-- `INSERT ... ON CONFLICT (id) DO UPDATE` on the `users` table, as
issued by `dbClient.from("users").upsert({ id, role }, { onConflict: "id" })`
(index.ts lines 173–179).  `id` is the primary key (schema.sql), so at
most one row matches: that row's role is overwritten, or a fresh row is
appended. -/
def upsertRow : List UserRow → String → String → List UserRow
  | [], userId, roleStr => [{ id := userId, role := roleStr }]
  | row :: rest, userId, roleStr =>
    if row.id == userId then { row with role := roleStr } :: rest
    else row :: upsertRow rest userId roleStr

/-- `upsertUserRole` (index.ts lines 173–179). -/
def upsertUserRole (s : Store) (userId roleStr : String) : Store :=
  { s with users := upsertRow s.users userId roleStr }

/-- The role write performed by `POST /api/auth/signup`
(index.ts lines 203–212): once the identity provider reports the new
user's id, the handler calls `upsertUserRole(data.user.id, "member")`. -/
def signupAssignRole (s : Store) (userId : String) : Store :=
  upsertUserRole s userId "member"

/-!  Concrete fixtures used by witnesses and counterexamples.  -/

/-- A stored class with one seat. -/
def demoClass : CommunityClass :=
  { id := "c1"
    title := "Pottery"
    description := "Wheel basics for neighbors."
    instructor_name := "Avery"
    location := "Studio"
    starts_at := 10
    capacity := 1
    created_at := 0
    created_by := "a1" }

/-- A second stored class, starting earlier, with two seats. -/
def demoClass2 : CommunityClass :=
  { id := "c2"
    title := "Gardening"
    description := "Container gardens for balconies."
    instructor_name := "Maya"
    location := "Greenhouse"
    starts_at := 5
    capacity := 2
    created_at := 0
    created_by := "a1" }

/-- A store with one admin, two members, one row with an unrecognized
role string, two classes and an empty registration ledger. -/
def demoStore : Store :=
  { users :=
      [{ id := "a1", role := "admin" },
       { id := "m1", role := "member" },
       { id := "m2", role := "member" },
       { id := "x1", role := "superadmin" }]
    classes := [demoClass, demoClass2]
    registrations := [] }

/-- A concrete identity verifier: three valid bearer tokens. -/
def demoTokenUser : String → Option String :=
  fun t =>
    if t == "tokA" then some "a1"
    else if t == "tokM" then some "m1"
    else if t == "tokX" then some "x1"
    else none

/-- Two distinct members concurrently requesting the one-seat class. -/
def raceThreads : List ReqThread :=
  [{ classId := "c1", memberId := "m1", regId := "r1", phase := .start },
   { classId := "c1", memberId := "m2", regId := "r2", phase := .start }]

/-- The same member racing two requests for the one-seat class. -/
def dupThreads : List ReqThread :=
  [{ classId := "c1", memberId := "m1", regId := "r1", phase := .start },
   { classId := "c1", memberId := "m1", regId := "r2", phase := .start }]

/-- The interleaving in which both requests finish all three pre-checks
before either insert runs. -/
def raceInterleaving : List Nat :=
  [0, 1, 0, 1, 0, 1, 0, 1]

/-- A store whose only `users` row already carries the `admin` role. -/
def adminStore : Store :=
  { users := [{ id := "u1", role := "admin" }]
    classes := []
    registrations := [] }

/-!  Theorems.  -/

/-- C1: the capacity invariant fails under concurrency.  Class `c1` has
capacity 1 and an empty ledger; two distinct members race, each request
completing its lookup, duplicate check and count check (both reading
count 0) before either insert runs.  The code admits both requests and
stores 2 registrations for a class of capacity 1 — the count-then-insert
sequence of index.ts lines 425–447 runs without any transaction or lock,
so the number of successful admissions exceeds the capacity, violating
the invariant the specification states. -/
theorem capacity_exceeded_under_race :
    demoClass.capacity = 1 ∧ countFor demoStore "c1" = 0 ∧
    (runSchedule demoStore raceThreads raceInterleaving).2.map (fun t => t.phase)
      = [.done .created, .done .created] ∧
    countFor (runSchedule demoStore raceThreads raceInterleaving).1 "c1" = 2 := by
  decide

/-- C2 (counterexample): when the same member races two registration
requests for class `c1` and the second insert hits the store's
uniqueness constraint (index.ts lines 440–447), the response is the raw
500 store error, not the 409 `AlreadyRegistered` of the step-2 pre-check
— the two outcomes are distinguishable and the raw storage message
leaks. -/
theorem insert_conflict_leaks_raw_error :
    (runSchedule demoStore dupThreads raceInterleaving).2.map (fun t => t.phase)
      = [.done .created, .done (.storeError dupKeyMessage)] ∧
    registrationStatus (.storeError dupKeyMessage) = 500 ∧
    RegistrationResponse.storeError dupKeyMessage ≠ .alreadyRegistered ∧
    registrationStatus .alreadyRegistered = 409 := by
  decide

/-- C2 (amended): when a second request by the same member races past the
pre-checks and the step-4 insert hits the store's uniqueness constraint,
the handler returns the 500 store error carrying the raw constraint
message (index.ts lines 444–447) — it is not mapped to the 409
`AlreadyRegistered` of the step-2 pre-check. -/
theorem insert_conflict_returns_raw_500 (s : Store) (cid m r1 r2 : String)
    (cls : CommunityClass) (hfind : findClass s cid = some cls)
    (hex : existsFor s cid m = false)
    (hcap : (countFor s cid : Int) < cls.capacity) :
    (runSchedule s
        [{ classId := cid, memberId := m, regId := r1, phase := .start },
         { classId := cid, memberId := m, regId := r2, phase := .start }]
        raceInterleaving).2.map (fun t => t.phase)
      = [.done .created, .done (.storeError dupKeyMessage)] ∧
    registrationStatus (.storeError dupKeyMessage) = 500 := by
  have hcap' : ¬ (cls.capacity ≤ (countFor s cid : Int)) := not_le.mpr hcap
  have hfind2 : findClass { s with registrations :=
      s.registrations ++ [{ id := r1, class_id := cid, member_id := m }] } cid = some cls := hfind
  have hex2 : existsFor { s with registrations :=
      s.registrations ++ [{ id := r1, class_id := cid, member_id := m }] } cid m = true := by
    simp [existsFor, List.any_append]
  constructor
  · simp [raceInterleaving, runSchedule, stepThread, hfind, hex, hcap', ledgerInsert, hex2, hfind2]
  · rfl

/-- C2 (witness): the raced-insert theorem applied to the concrete
one-seat fixture. -/
theorem insert_conflict_returns_raw_500_witness :
    (runSchedule demoStore
        [{ classId := "c1", memberId := "m1", regId := "r1", phase := .start },
         { classId := "c1", memberId := "m1", regId := "r2", phase := .start }]
        raceInterleaving).2.map (fun t => t.phase)
      = [.done .created, .done (.storeError dupKeyMessage)] ∧
    registrationStatus (.storeError dupKeyMessage) = 500 :=
  insert_conflict_returns_raw_500 demoStore "c1" "m1" "r1" "r2" demoClass
    (by decide) (by decide) (by decide)

/-- C3: the admission decision sequence is exactly: absent class →
`ClassNotFound`; else existing (classId, memberId) registration →
`AlreadyRegistered`; else `count >= capacity` → `ClassFull`; else the
registration is inserted and the call succeeds — in that order, the
first failing check determining the error (index.ts lines 392–449). -/
theorem admission_decision_order (s : Store) (cid m r : String) :
    (findClass s cid = none → admission s cid m r = (.classNotFound, s)) ∧
    (∀ cls, findClass s cid = some cls → existsFor s cid m = true →
      admission s cid m r = (.alreadyRegistered, s)) ∧
    (∀ cls, findClass s cid = some cls → existsFor s cid m = false →
      cls.capacity ≤ (countFor s cid : Int) →
      admission s cid m r = (.classFull, s)) ∧
    (∀ cls, findClass s cid = some cls → existsFor s cid m = false →
      (countFor s cid : Int) < cls.capacity →
      admission s cid m r =
        (.created, { s with registrations :=
          s.registrations ++ [{ id := r, class_id := cid, member_id := m }] })) := by
  refine ⟨?_, ?_, ?_, ?_⟩
  · intro h
    simp [admission, h]
  · intro cls h hex
    simp [admission, h, hex]
  · intro cls h hex hge
    simp [admission, h, hex, hge]
  · intro cls h hex hlt
    have h' : ¬ (cls.capacity ≤ (countFor s cid : Int)) := not_le.mpr hlt
    simp [admission, h, hex, h', ledgerInsert]

/-- C3 (witness): the success branch of the decision sequence evaluated
on the two-seat fixture class. -/
theorem admission_decision_order_witness :
    admission demoStore "c2" "m1" "r9" =
      (.created, { demoStore with registrations :=
        demoStore.registrations ++ [{ id := "r9", class_id := "c2", member_id := "m1" }] }) :=
  (admission_decision_order demoStore "c2" "m1" "r9").2.2.2 demoClass2
    (by decide) (by decide) (by decide)

/-- C6: once a registration for (classId, memberId) exists, `admission` for
that pair returns `AlreadyRegistered` and changes nothing (the store's
foreign key guarantees the registered class exists); in particular a
member admitting twice sequentially gets `created` then
`AlreadyRegistered` (index.ts lines 408–423). -/
theorem idempotent_rejection (s : Store) (cid m r1 r2 : String)
    (hFK : ∀ reg ∈ s.registrations, ∃ c ∈ s.classes, c.id = reg.class_id) :
    (existsFor s cid m = true → admission s cid m r1 = (.alreadyRegistered, s)) ∧
    ((admission s cid m r1).1 = .created →
      admission (admission s cid m r1).2 cid m r2 =
        (.alreadyRegistered, (admission s cid m r1).2)) := by
  constructor
  · intro hex
    obtain ⟨reg, hmem, hp⟩ := List.any_eq_true.mp hex
    obtain ⟨hcid, -⟩ := (Bool.and_eq_true _ _ ▸ hp : _ ∧ _)
    obtain ⟨c, hcmem, hc⟩ := hFK reg hmem
    have hcls : (s.classes.find? (fun c => c.id == cid)).isSome := by
      rw [List.find?_isSome]
      refine ⟨c, hcmem, ?_⟩
      rw [hc]
      exact hcid
    obtain ⟨cls, hfind⟩ := Option.isSome_iff_exists.mp hcls
    simp [admission, findClass, hfind, hex]
  · intro hcr
    rcases hf : findClass s cid with - | cls
    · simp [admission, hf] at hcr
    rcases hex : existsFor s cid m
    · by_cases hc : cls.capacity ≤ (countFor s cid : Int)
      · simp [admission, hf, hex, hc] at hcr
      · have hIns : admission s cid m r1 =
            (.created, { s with registrations :=
              s.registrations ++ [{ id := r1, class_id := cid, member_id := m }] }) := by
          simp [admission, hf, hex, hc, ledgerInsert]
        rw [hIns]
        have hex2 : existsFor { s with registrations :=
            s.registrations ++ [{ id := r1, class_id := cid, member_id := m }] } cid m = true := by
          simp [existsFor, List.any_append]
        have hf2 : findClass { s with registrations :=
            s.registrations ++ [{ id := r1, class_id := cid, member_id := m }] } cid = some cls := hf
        simp [admission, hf2, hex2]
    · simp [admission, hf, hex] at hcr

/-- C6 (witness): on a store with one existing registration, admitting
the same pair again yields `AlreadyRegistered`. -/
theorem idempotent_rejection_witness :
    admission { demoStore with registrations := [{ id := "r0", class_id := "c1", member_id := "m1" }] }
        "c1" "m1" "r5" =
      (.alreadyRegistered,
        { demoStore with registrations := [{ id := "r0", class_id := "c1", member_id := "m1" }] }) :=
  (idempotent_rejection
      { demoStore with registrations := [{ id := "r0", class_id := "c1", member_id := "m1" }] }
      "c1" "m1" "r5" "r6" (by decide)).1 (by decide)

/-- C7: admission for a classId with no stored class returns
`ClassNotFound` and leaves the store — in particular the registration
ledger — unchanged; the lookup precedes any insert
(index.ts lines 392–406). -/
theorem unknown_class_rejected (s : Store) (cid m r : String)
    (h : findClass s cid = none) :
    admission s cid m r = (.classNotFound, s) ∧
    registrationStatus .classNotFound = 404 := by
  refine ⟨?_, rfl⟩
  simp [admission, h]

/-- C7 (witness): admission against an id absent from the fixture store. -/
theorem unknown_class_rejected_witness :
    admission demoStore "missing" "m1" "r1" = (.classNotFound, demoStore) ∧
    registrationStatus .classNotFound = 404 :=
  unknown_class_rejected demoStore "missing" "m1" "r1" (by decide)

/-- C5: an authenticated principal whose stored role resolves to `member`
gets `Forbidden` (403) from class creation with nothing persisted, and
one whose role resolves to `admin` gets `Forbidden` (403) from
registration with nothing persisted (index.ts lines 162–165, 287–291,
379–383). -/
theorem role_gate (s : Store) (tokenUser : String → Option String)
    (hdr : Option String) (tok uid : String)
    (hTok : readBearerToken hdr = some tok) (hUser : tokenUser tok = some uid) :
    (fetchUserRole s uid = some .member →
      ∀ body parseDate newId now,
        createClassHandler s tokenUser hdr body parseDate newId now = (.forbidden, s) ∧
        createClassStatus .forbidden = 403) ∧
    (fetchUserRole s uid = some .admin →
      ∀ body regId,
        registerHandler s tokenUser hdr body regId = (.forbidden, s) ∧
        registrationStatus .forbidden = 403) := by
  constructor
  · intro hrole body parseDate newId now
    refine ⟨?_, rfl⟩
    simp [createClassHandler, requireUser, hTok, hUser, hrole]
    rfl
  · intro hrole body regId
    refine ⟨?_, rfl⟩
    simp [registerHandler, requireUser, hTok, hUser, hrole]
    rfl

/-- C5 (witness): the fixture member is refused class creation and the
fixture admin is refused registration, both with 403 and an unchanged
store. -/
theorem role_gate_witness :
    (createClassHandler demoStore demoTokenUser (some "Bearer tokM") none
        (fun _ => some 0) "id9" 99 = (.forbidden, demoStore) ∧
      createClassStatus .forbidden = 403) ∧
    (registerHandler demoStore demoTokenUser (some "Bearer tokA") (some "c1") "r9"
        = (.forbidden, demoStore) ∧
      registrationStatus .forbidden = 403) :=
  ⟨(role_gate demoStore demoTokenUser (some "Bearer tokM") "tokM" "m1"
      (by decide) (by decide)).1 (by decide) none (fun _ => some 0) "id9" 99,
   (role_gate demoStore demoTokenUser (some "Bearer tokA") "tokA" "a1"
      (by decide) (by decide)).2 (by decide) (some "c1") "r9"⟩

/-- C8: a class-creation request by an authenticated admin whose capacity
is non-positive, above 1000, or not an integer fails `createClassSchema`
validation, receives 400, and persists no class
(index.ts lines 67–76 and 293–301). -/
theorem invalid_capacity_rejected (s : Store) (tokenUser : String → Option String)
    (hdr : Option String) (uid : String)
    (hauth : requireUser s tokenUser hdr (some [.admin]) = .ok uid .admin)
    (b : CreateClassBody) (parseDate : String → Option Int) (newId : String) (now : Int)
    (hcap : b.capacity ≤ 0 ∨ 1000 < b.capacity ∨ b.capacity.den ≠ 1) :
    createClassHandler s tokenUser hdr (some b) parseDate newId now = (.invalidPayload, s) ∧
    createClassStatus .invalidPayload = 400 := by
  have hvalid : validCreateClass parseDate b = false := by
    rcases hcap with h | h | h
    · have h1 : ¬ (1 ≤ b.capacity) := by
        intro hh
        have h2 : (1 : Rat) ≤ 0 := le_trans hh h
        norm_num at h2
      simp [validCreateClass, decide_eq_false h1]
    · have h1 : ¬ (b.capacity ≤ 1000) := not_le.mpr h
      simp [validCreateClass, decide_eq_false h1]
    · simp [validCreateClass, decide_eq_false h]
  refine ⟨?_, rfl⟩
  simp [createClassHandler, hauth, hvalid]

/-- C8 (witness): the fixture admin submitting capacity −1 is rejected
with 400 and the store is unchanged. -/
theorem invalid_capacity_rejected_witness :
    createClassHandler demoStore demoTokenUser (some "Bearer tokA")
        (some { title := "Pots", description := "Ten characters plus.",
                instructorName := "Avery", location := "Studio",
                startsAt := "2026-03-20T22:30:00Z", capacity := (-1 : Rat) })
        (fun _ => some 10) "id9" 99 = (.invalidPayload, demoStore) ∧
    createClassStatus .invalidPayload = 400 :=
  invalid_capacity_rejected demoStore demoTokenUser (some "Bearer tokA") "a1"
    (by decide)
    { title := "Pots", description := "Ten characters plus.",
      instructorName := "Avery", location := "Studio",
      startsAt := "2026-03-20T22:30:00Z", capacity := (-1 : Rat) }
    (fun _ => some 10) "id9" 99 (Or.inl (by decide))

/-- C9: every successful class listing — the admin view and the member
view — returns exactly the stored classes (a permutation of the
`community_classes` rows) ordered by `starts_at` ascending
(index.ts lines 274–277 and 333–336). -/
theorem class_lists_sorted (s : Store) (tokenUser : String → Option String)
    (hdr : Option String) :
    (∀ items, adminListHandler s tokenUser hdr = .ok items →
      List.Sorted startsLe items ∧ items.Perm s.classes) ∧
    (∀ items, memberListHandler s tokenUser hdr = .ok items →
      List.Sorted startsLe (items.map (fun v => v.base)) ∧
      (items.map (fun v => v.base)).Perm s.classes) := by
  constructor
  · intro items h
    rcases hq : requireUser s tokenUser hdr (some [.admin]) with - | - | - | - | ⟨uid, role⟩ <;>
      simp [adminListHandler, hq] at h
    rw [← h]
    exact ⟨List.sorted_insertionSort startsLe s.classes,
      List.perm_insertionSort startsLe s.classes⟩
  · intro items h
    rcases hq : requireUser s tokenUser hdr (some [.member]) with - | - | - | - | ⟨uid, role⟩ <;>
      simp [memberListHandler, hq] at h
    rw [← h]
    have hmap : (memberClassList s uid).map (fun v => v.base) = listClassesOrdered s := by
      rw [memberClassList, List.map_map]
      exact List.map_id'' (fun c => rfl) _
    rw [hmap]
    exact ⟨List.sorted_insertionSort startsLe s.classes,
      List.perm_insertionSort startsLe s.classes⟩

/-- C9 (witness): the fixture store's two classes come back sorted by
`starts_at` (class `c2` starts before `c1`) for both views. -/
theorem class_lists_sorted_witness :
    (List.Sorted startsLe (listClassesOrdered demoStore) ∧
      (listClassesOrdered demoStore).Perm demoStore.classes) ∧
    (List.Sorted startsLe ((memberClassList demoStore "m1").map (fun v => v.base)) ∧
      ((memberClassList demoStore "m1").map (fun v => v.base)).Perm demoStore.classes) :=
  ⟨(class_lists_sorted demoStore demoTokenUser (some "Bearer tokA")).1
      (listClassesOrdered demoStore) (by decide),
   (class_lists_sorted demoStore demoTokenUser (some "Bearer tokM")).2
      (memberClassList demoStore "m1") (by decide)⟩

/-- C10: authorization fails closed on unknown roles: when the bearer
token verifies but the `users` row for the id is absent or stores any
role string other than exactly `"admin"` or `"member"`,
`fetchUserRole` yields nothing and every guarded operation answers 403
(`noRole`) without running (index.ts lines 119–135 and 156–165). -/
theorem unknown_role_fails_closed (s : Store) (tokenUser : String → Option String)
    (hdr : Option String) (tok uid : String)
    (hTok : readBearerToken hdr = some tok) (hUser : tokenUser tok = some uid)
    (hRole : ∀ u ∈ s.users, u.id = uid → u.role ≠ "admin" ∧ u.role ≠ "member") :
    fetchUserRole s uid = none ∧
    (∀ allowed, requireUser s tokenUser hdr allowed = .noRole) ∧
    (∀ body regId, registerHandler s tokenUser hdr body regId = (.noRole, s)) ∧
    (∀ body parseDate newId now,
      createClassHandler s tokenUser hdr body parseDate newId now = (.noRole, s)) ∧
    registrationStatus .noRole = 403 := by
  have hfetch : fetchUserRole s uid = none := by
    rcases hf : s.users.find? (fun u => u.id == uid) with - | row
    · simp [fetchUserRole, hf]
    · have hmem : row ∈ s.users := List.mem_of_find?_eq_some hf
      have hpred := List.find?_some hf
      have hid : row.id = uid := by simpa using hpred
      obtain ⟨h1, h2⟩ := hRole row hmem hid
      simp [fetchUserRole, hf, h1, h2]
  refine ⟨hfetch, ?_, ?_, ?_, rfl⟩
  · intro allowed
    simp [requireUser, hTok, hUser, hfetch]
  · intro body regId
    simp [registerHandler, requireUser, hTok, hUser, hfetch]
  · intro body parseDate newId now
    simp [createClassHandler, requireUser, hTok, hUser, hfetch]

/-- C10 (witness): the fixture row storing role `"superadmin"` is
rejected with 403 everywhere. -/
theorem unknown_role_fails_closed_witness :
    fetchUserRole demoStore "x1" = none ∧
    (∀ allowed, requireUser demoStore demoTokenUser (some "Bearer tokX") allowed = .noRole) ∧
    (∀ body regId,
      registerHandler demoStore demoTokenUser (some "Bearer tokX") body regId
        = (.noRole, demoStore)) ∧
    (∀ body parseDate newId now,
      createClassHandler demoStore demoTokenUser (some "Bearer tokX") body parseDate newId now
        = (.noRole, demoStore)) ∧
    registrationStatus .noRole = 403 :=
  unknown_role_fails_closed demoStore demoTokenUser (some "Bearer tokX") "tokX" "x1"
    (by decide) (by decide) (by decide)

/-- Writing the same (id, role) pair twice is the same as writing it
once. -/
theorem upsertRow_idem (l : List UserRow) (u r : String) :
    upsertRow (upsertRow l u r) u r = upsertRow l u r := by
  induction l with
  | nil => simp [upsertRow]
  | cons row rest ih =>
    cases h : row.id == u with
    | true => simp [upsertRow, h]
    | false => simp [upsertRow, h, ih]

/-- After an upsert, looking the id up finds a row carrying the written
role. -/
theorem find?_upsertRow_self (l : List UserRow) (u r : String) :
    ∃ row, (upsertRow l u r).find? (fun x => x.id == u) = some row ∧ row.role = r := by
  induction l with
  | nil => exact ⟨{ id := u, role := r }, by simp [upsertRow], rfl⟩
  | cons row rest ih =>
    cases h : row.id == u with
    | true =>
      refine ⟨{ row with role := r }, ?_, rfl⟩
      simp [upsertRow, h, List.find?]
    | false =>
      obtain ⟨w, hw, hr⟩ := ih
      refine ⟨w, ?_, hr⟩
      simp [upsertRow, h, List.find?, hw]

/-- An upsert for one id leaves the lookup of every other id unchanged. -/
theorem find?_upsertRow_other (l : List UserRow) (u r v : String) (hne : v ≠ u) :
    (upsertRow l u r).find? (fun x => x.id == v) = l.find? (fun x => x.id == v) := by
  induction l with
  | nil =>
    have h0 : (u == v) = false := beq_eq_false_iff_ne.mpr (fun hh => hne hh.symm)
    simp [upsertRow, List.find?, h0]
  | cons row rest ih =>
    cases h : row.id == u with
    | true =>
      have hru : row.id = u := by simpa using h
      have h0 : (row.id == v) = false := by
        rw [hru]
        exact beq_eq_false_iff_ne.mpr (fun hh => hne hh.symm)
      simp [upsertRow, h, List.find?, h0]
    | false =>
      cases h2 : row.id == v with
      | true => simp [upsertRow, h, List.find?, h2]
      | false => simp [upsertRow, h, List.find?, h2, ih]

/-- C4 (counterexample): a store whose `users` row for `u1` already
carries role `admin`; running the signup role write
(`upsertUserRole(u1, "member")`, index.ts lines 173–179 and 203–212)
overwrites it: the stored role becomes `member` — an in-scope operation
mutating an already-assigned role. -/
theorem signup_overwrites_assigned_role :
    fetchUserRole adminStore "u1" = some .admin ∧
    fetchUserRole (signupAssignRole adminStore "u1") "u1" = some .member ∧
    signupAssignRole adminStore "u1" ≠ adminStore := by
  decide

/-- C4 (amended): the signup role write is an idempotent upsert that
writes `member` (never `admin`) for the signed-up id, and touches no
other principal's role; but for the signed-up id itself it overwrites
whatever role was stored, so an already-assigned role for that id is
reset to `member` rather than preserved. -/
theorem signup_role_assignment (s : Store) (u v : String) (hne : v ≠ u) :
    signupAssignRole (signupAssignRole s u) u = signupAssignRole s u ∧
    fetchUserRole (signupAssignRole s u) u = some .member ∧
    fetchUserRole (signupAssignRole s u) v = fetchUserRole s v := by
  refine ⟨?_, ?_, ?_⟩
  · simp [signupAssignRole, upsertUserRole, upsertRow_idem]
  · obtain ⟨row, hw, hr⟩ := find?_upsertRow_self s.users u "member"
    simp [fetchUserRole, signupAssignRole, upsertUserRole, hw, hr]
  · simp [fetchUserRole, signupAssignRole, upsertUserRole,
      find?_upsertRow_other s.users u "member" v hne]

/-- C4 (witness): signup for a fresh id `m3` is idempotent, records
`member`, and leaves the stored admin role of `a1` untouched. -/
theorem signup_role_assignment_witness :
    signupAssignRole (signupAssignRole demoStore "m3") "m3" = signupAssignRole demoStore "m3" ∧
    fetchUserRole (signupAssignRole demoStore "m3") "m3" = some .member ∧
    fetchUserRole (signupAssignRole demoStore "m3") "a1" = fetchUserRole demoStore "a1" :=
  signup_role_assignment demoStore "m3" "a1" (by decide)

end Fullstack
